import Mathlib

/-
  Shallow embedding of the draggable-drawer implementation in
  src/src/v5/App.tsx (the most advanced version of the drawer, the one the
  specification describes).  Pointer coordinates and pixel heights are
  modelled as integers; the overlay opacity, which the source computes by
  division, is a rational.  Each definition mirrors one function or
  constant of the source file.
-/

namespace DrawerV5

/-- Source constant, `const DURATION = 400`. -/
def DURATION : ℤ := 400

/-- Source constant, `const FULL_HEIGHT_OFFSET = 20`. -/
def FULL_HEIGHT_OFFSET : ℤ := 20

/-- The `fullHeight` prop: `"auto" | "100%"` (default `"auto"`). -/
inductive FullHeightMode
  | auto
  | full100
deriving DecidableEq

/-- The geometry-relevant drawer props: optional `peekHeight` and `fullHeight`. -/
structure Config where
  peekHeight : Option ℤ
  fullHeight : FullHeightMode
deriving DecidableEq

/-- JS truthiness of the `peekHeight` prop as tested by `peekHeight && ...` and
`peekHeight ? _ : _` in the source: defined and nonzero. -/
def Config.peekTruthy (c : Config) : Bool :=
  match c.peekHeight with
  | some p => p != 0
  | none => false

/-- Source `getPeekOpenTranslateY`: `viewportHeight - (peekHeight || 0)`.
When `peekHeight` is `undefined` the fallback is `0`; when it is `0` the
`||` also yields `0`, so `Option.getD 0` is exact. -/
def getPeekOpenTranslateY (viewportHeight : ℤ) (c : Config) : ℤ :=
  viewportHeight - c.peekHeight.getD 0

/-- Source `getFullOpenTranslateY`: `FULL_HEIGHT_OFFSET` when `fullHeight === "100%"`,
otherwise `viewportHeight - drawerContentHeight`. -/
def getFullOpenTranslateY (viewportHeight drawerContentHeight : ℤ) (c : Config) : ℤ :=
  match c.fullHeight with
  | .full100 => FULL_HEIGHT_OFFSET
  | .auto => viewportHeight - drawerContentHeight

/-- Source `getClosedTranslateY`: `viewportHeight`. -/
def getClosedTranslateY (viewportHeight : ℤ) : ℤ :=
  viewportHeight

/-- The `openState` field of the source ref (initialised `"closed"`, never
reassigned in v5; kept for fidelity). -/
inductive OpenState
  | peek
  | full
  | closed
deriving DecidableEq

/-- Direction classification stored in `dragState.current.dragDirection`
(`"up" | "down" | null`; `none` models `null`). -/
inductive DragDirection
  | up
  | down
deriving DecidableEq

/-- The mutable ref `dragState.current` of the source. -/
structure DragState where
  openState : OpenState
  isDragging : Bool
  translateY : ℤ
  dragStartY : ℤ
  initialYOffset : ℤ
  dragDirection : Option DragDirection
  touchStartedOnDrawer : Bool
deriving DecidableEq

/-- The initial value of the `dragState` ref in the source. -/
def initialDragState : DragState :=
  { openState := .closed
    isDragging := false
    translateY := 0
    dragStartY := 0
    initialYOffset := 0
    dragDirection := none
    touchStartedOnDrawer := false }

/-- The inline styles the drag handlers write directly to the DOM surfaces:
the drawer transform (its translateY) and the overlay opacity. -/
structure Surfaces where
  drawerTransform : ℤ
  overlayOpacity : ℚ
deriving DecidableEq

/-- Ambient geometry read by the handlers. `viewportHeight` is the
`useViewportHeight` hook state; `windowInnerHeight` is `window.innerHeight`
read directly inside `handleDragMove` (equal to `viewportHeight` once the
resize handler has run); `drawerHeight` is the live
`drawerElement.getBoundingClientRect().height`; `drawerContentHeight` is the
measured height consumed by `getFullOpenTranslateY`. -/
structure Env where
  viewportHeight : ℤ
  windowInnerHeight : ℤ
  drawerHeight : ℤ
  drawerContentHeight : ℤ
  config : Config
deriving DecidableEq

/-- Source `handleDragStart`: records the start pointer Y, marks the session
dragging and started-on-drawer, and captures the pointer offset within the
drawer (`event.clientY - top`).  Note it does not touch `dragDirection`. -/
def handleDragStart (s : DragState) (clientY drawerTop : ℤ) : DragState :=
  { s with
    isDragging := true
    dragStartY := clientY
    touchStartedOnDrawer := true
    initialYOffset := clientY - drawerTop }

/-- The `bottomThreshold` of the overlay interpolation in `handleDragMove`:
`peekHeight ? viewportHeight - peekHeight : viewportHeight - drawerHeight`. -/
def bottomThreshold (env : Env) : ℤ :=
  if env.config.peekTruthy then
    env.viewportHeight - env.config.peekHeight.getD 0
  else
    env.viewportHeight - env.drawerHeight

/-- Source `handleDragMove`.  Returns the updated drag state and the updated
surface styles.  Mirrors the source's control flow exactly: the early return
when not dragging; the unconditional write of `translateY` into the drag
state; the rejection (before the transform write) when the amount of drawer
showing would reach the drawer's height; the 15px deadband before direction
classification; the per-move direction comparison against the previous
stored `translateY`; and the overlay opacity `Math.max(0, 1 - progress)`. -/
def handleDragMove (env : Env) (s : DragState) (surf : Surfaces) (clientY : ℤ) :
    DragState × Surfaces :=
  if s.isDragging = false then (s, surf)
  else
    let diff := clientY - s.dragStartY
    let newTranslateY := s.dragStartY + diff - s.initialYOffset
    let prevTranslateY := s.translateY
    let s1 : DragState := { s with translateY := newTranslateY }
    let amountDrawerShowing := env.windowInnerHeight - s1.translateY
    if env.drawerHeight ≤ amountDrawerShowing then (s1, surf)
    else
      let surf1 : Surfaces := { surf with drawerTransform := s1.translateY }
      if |diff| < 15 then (s1, surf1)
      else
        let s2 : DragState :=
          if newTranslateY < prevTranslateY then { s1 with dragDirection := some .up }
          else if prevTranslateY < newTranslateY then { s1 with dragDirection := some .down }
          else s1
        let progress : ℚ :=
          ((newTranslateY - bottomThreshold env : ℤ) : ℚ) /
            ((env.viewportHeight - bottomThreshold env : ℤ) : ℚ)
        let opacity : ℚ := max 0 (1 - progress)
        (s2, { surf1 with overlayOpacity := opacity })

/-- Observable outcome of `handleDragEnd`: the final drag state, whether
`onClose` was invoked, and the `animateToPosition` target when one was issued. -/
structure DragEndResult where
  state : DragState
  closeInvoked : Bool
  animatedTo : Option ℤ
deriving DecidableEq

/-- Source `handleDragEnd`.  Clears `isDragging`, then resolves the release:
down+peek+above-peek settles at peek; down otherwise invokes `onClose` (the
translateY is left as dragged, the controller animates later); up settles at
the full-open offset (two textually duplicated source branches collapse to
the same outcome); no direction snaps to the closer of peek/full, where the
source's `if (peekPosition)` is a JS truthiness test, false for both `null`
and a zero peek offset.  Note `dragDirection` is never reset here. -/
def handleDragEnd (env : Env) (s : DragState) : DragEndResult :=
  let s0 : DragState := { s with isDragging := false }
  let peekOpen := getPeekOpenTranslateY env.viewportHeight env.config
  let fullOpen := getFullOpenTranslateY env.viewportHeight env.drawerContentHeight env.config
  if s0.dragDirection = some .down ∧ env.config.peekTruthy = true ∧ s0.translateY < peekOpen then
    { state := { s0 with translateY := peekOpen }
      closeInvoked := false
      animatedTo := some peekOpen }
  else if s0.dragDirection = some .down then
    { state := s0, closeInvoked := true, animatedTo := none }
  else if s0.dragDirection = some .up ∧ env.config.peekTruthy = true then
    { state := { s0 with translateY := fullOpen }
      closeInvoked := false
      animatedTo := some fullOpen }
  else if s0.dragDirection = some .up then
    { state := { s0 with translateY := fullOpen }
      closeInvoked := false
      animatedTo := some fullOpen }
  else
    let currentPosition := s0.translateY
    let peekPosition : Option ℤ := if env.config.peekTruthy then some peekOpen else none
    let target : ℤ :=
      match peekPosition with
      | some pp =>
        if pp ≠ 0 then
          if |currentPosition - pp| < |currentPosition - fullOpen| then pp else fullOpen
        else fullOpen
      | none => fullOpen
    { state := { s0 with translateY := target }
      closeInvoked := false
      animatedTo := some target }

/-- Feed a list of pointer-move clientY values through `handleDragMove` in
event-arrival order. -/
def runMoves (env : Env) (start : DragState × Surfaces) (moves : List ℤ) :
    DragState × Surfaces :=
  moves.foldl (fun acc y => handleDragMove env acc.1 acc.2 y) start

/-- State of the `AnimatedRender` component: the `showing` prop, the
`isMounted` React state, and the pending `setTimeout` that will call
`setIsMounted(false)` (modelled as the number of remaining time units until
it fires; `none` when no timeout is outstanding). -/
structure AnimatedRenderState where
  showing : Bool
  isMounted : Bool
  pending : Option ℕ
deriving DecidableEq

/-- Events driving `AnimatedRender`: the `showing` prop changes (the effect
re-runs; its cleanup clears the pending timeout, then the body runs), or one
unit of time elapses. -/
inductive AnimatedRenderEvent
  | setShowing (b : Bool)
  | tick
deriving DecidableEq

/-- One step of the `AnimatedRender` effect machinery.  A `setShowing` equal
to the current prop is a no-op (the effect only re-runs when `showing`
changes).  On a change to `true` the cleanup clears any pending timeout and
the body mounts; on a change to `false` with content mounted the body
schedules `setIsMounted(false)` after `duration`; a `tick` counts the
pending timeout down, unmounting when it fires. -/
def animatedRenderStep (duration : ℕ) (s : AnimatedRenderState) :
    AnimatedRenderEvent → AnimatedRenderState
  | .setShowing b =>
    if b = s.showing then s
    else if b then { showing := true, isMounted := true, pending := none }
    else if s.isMounted then
      { showing := false, isMounted := true, pending := some duration }
    else
      { showing := false, isMounted := s.isMounted, pending := none }
  | .tick =>
    match s.pending with
    | none => s
    | some n =>
      if n ≤ 1 then { s with isMounted := false, pending := none }
      else { s with pending := some (n - 1) }

/-- Elapse `k` units of time. -/
def animatedRenderTicks (duration : ℕ) : AnimatedRenderState → ℕ → AnimatedRenderState
  | s, 0 => s
  | s, k + 1 => animatedRenderTicks duration (animatedRenderStep duration s .tick) k

/-- The render result of `AnimatedRender`: `isMounted || showing ? children : null`;
`true` means the children are in the tree. -/
def rendersChildren (s : AnimatedRenderState) : Bool :=
  s.isMounted || s.showing

/-- The grace duration the Drawer passes to `AnimatedRender`:
`duration={DURATION + 100}`. -/
def graceDuration : ℕ := 400 + 100

/-- The `useKeyPress` handler body: the callback fires iff the event's key
equals the configured key (`if (e.key === key) callback()`). -/
def keyPressInvokesCallback (key eventKey : String) : Bool :=
  eventKey == key

/-- The Drawer registers `useKeyPress("Escape", onClose)` unconditionally,
with no `isOpen` guard, so whether a keydown invokes `onClose` does not
depend on `isOpen`; the parameter is kept to express exactly that. -/
def drawerKeydownInvokesClose (_isOpen : Bool) (eventKey : String) : Bool :=
  keyPressInvokesCallback "Escape" eventKey

end DrawerV5

namespace DrawerV5

/-- C1: for every drag release classified `down` with a peek offset
configured (positive `peekHeight`) and terminal position numerically less
than the peek offset, the drawer settles at the peek offset
`viewportHeight - peekHeight`: the stored position is set to it, the settle
animation targets it, and the close callback is not invoked. -/
theorem C1_release_down_above_peek_settles_at_peek
    (env : Env) (s : DragState) (p : ℤ)
    (hp : env.config.peekHeight = some p) (hpos : 0 < p)
    (hdir : s.dragDirection = some .down)
    (habove : s.translateY < getPeekOpenTranslateY env.viewportHeight env.config) :
    (handleDragEnd env s).state.translateY = env.viewportHeight - p ∧
    (handleDragEnd env s).animatedTo = some (env.viewportHeight - p) ∧
    (handleDragEnd env s).closeInvoked = false := by
  have htr : env.config.peekTruthy = true := by
    simp [Config.peekTruthy, hp]
    omega
  have hpeek : getPeekOpenTranslateY env.viewportHeight env.config = env.viewportHeight - p := by
    simp [getPeekOpenTranslateY, hp]
  rw [hpeek] at habove
  simp [handleDragEnd, htr, hdir, hpeek, habove]

/-- Witness for C1 at a concrete input: viewport 800, peekHeight 150, a
down-classified release at position 400 settles at 650 without closing. -/
theorem C1_release_down_above_peek_settles_at_peek_witness :
    (handleDragEnd ⟨800, 800, 780, 780, ⟨some 150, .full100⟩⟩
        { openState := .full
          isDragging := true
          translateY := 400
          dragStartY := 420
          initialYOffset := 20
          dragDirection := some .down
          touchStartedOnDrawer := true }).state.translateY = 800 - 150 ∧
    (handleDragEnd ⟨800, 800, 780, 780, ⟨some 150, .full100⟩⟩
        { openState := .full
          isDragging := true
          translateY := 400
          dragStartY := 420
          initialYOffset := 20
          dragDirection := some .down
          touchStartedOnDrawer := true }).animatedTo = some (800 - 150) ∧
    (handleDragEnd ⟨800, 800, 780, 780, ⟨some 150, .full100⟩⟩
        { openState := .full
          isDragging := true
          translateY := 400
          dragStartY := 420
          initialYOffset := 20
          dragDirection := some .down
          touchStartedOnDrawer := true }).closeInvoked = false :=
  C1_release_down_above_peek_settles_at_peek
    ⟨800, 800, 780, 780, ⟨some 150, .full100⟩⟩
    { openState := .full
      isDragging := true
      translateY := 400
      dragStartY := 420
      initialYOffset := 20
      dragDirection := some .down
      touchStartedOnDrawer := true }
    150 rfl (by decide) rfl (by decide)

/-- C2 counterexample: with no peek configured, a drag whose net pointer
displacement from the start is 50px downward (exceeding the 15px deadband)
does not invoke the close callback, because the last qualifying move was
upward and the per-move direction classification ends `up`; the release
animates back to the full-open offset instead.  Pointer at 520 on a drawer
whose top is 500 (viewport 800, content 300), moves to 620 then 570, then
release. -/
theorem C2_net_down_displacement_close_counterexample :
    (let env : Env := ⟨800, 800, 300, 300, ⟨none, .auto⟩⟩
     let s1 := handleDragStart { initialDragState with translateY := 500 } 520 500
     let e := handleDragEnd env (runMoves env (s1, ⟨500, 1⟩) [620, 570]).1
     env.config.peekHeight = none ∧ (15:ℤ) < 570 - 520 ∧
     e.closeInvoked = false ∧ e.animatedTo = some 500) := by decide

/-- C2 amended: with no peek configured, the close callback is invoked at
pointer-up exactly when the release-time direction classification is `down`;
that classification is set per move (the last pointer-move whose cumulative
displacement reached the 15px deadband and changed the stored position), not
by the net displacement of the whole gesture. -/
theorem C2_direction_down_no_peek_closes
    (env : Env) (s : DragState)
    (hpeek : env.config.peekTruthy = false)
    (hdir : s.dragDirection = some .down) :
    (handleDragEnd env s).closeInvoked = true ∧
    (handleDragEnd env s).animatedTo = none ∧
    (handleDragEnd env s).state.translateY = s.translateY := by
  simp [handleDragEnd, hdir, hpeek]

/-- Witness for the amended C2: a release with direction `down` and no peek
invokes the close callback. -/
theorem C2_direction_down_no_peek_closes_witness :
    (handleDragEnd ⟨800, 800, 300, 300, ⟨none, .auto⟩⟩
        { openState := .closed
          isDragging := true
          translateY := 600
          dragStartY := 520
          initialYOffset := 20
          dragDirection := some .down
          touchStartedOnDrawer := true }).closeInvoked = true ∧
    (handleDragEnd ⟨800, 800, 300, 300, ⟨none, .auto⟩⟩
        { openState := .closed
          isDragging := true
          translateY := 600
          dragStartY := 520
          initialYOffset := 20
          dragDirection := some .down
          touchStartedOnDrawer := true }).animatedTo = none ∧
    (handleDragEnd ⟨800, 800, 300, 300, ⟨none, .auto⟩⟩
        { openState := .closed
          isDragging := true
          translateY := 600
          dragStartY := 520
          initialYOffset := 20
          dragDirection := some .down
          touchStartedOnDrawer := true }).state.translateY = 600 :=
  C2_direction_down_no_peek_closes
    ⟨800, 800, 300, 300, ⟨none, .auto⟩⟩
    { openState := .closed
      isDragging := true
      translateY := 600
      dragStartY := 520
      initialYOffset := 20
      dragDirection := some .down
      touchStartedOnDrawer := true }
    rfl rfl

/-- C5: the canonical offsets are closed = viewportHeight, peekOpen =
viewportHeight - peekHeight, fullOpen = FULL_HEIGHT_OFFSET = 20 in "100%"
mode and viewportHeight - contentHeight in auto mode; in particular
viewport 800 / content 300 / no peek gives open 500 and closed 800, and
peekHeight 150 / fullHeight "100%" / viewport 800 gives peek 650 and
full 20. -/
theorem C5_canonical_offsets :
    (∀ vh : ℤ, getClosedTranslateY vh = vh) ∧
    (∀ (vh p : ℤ) (m : FullHeightMode), getPeekOpenTranslateY vh ⟨some p, m⟩ = vh - p) ∧
    (∀ (vh ch : ℤ) (pk : Option ℤ), getFullOpenTranslateY vh ch ⟨pk, .full100⟩ = 20) ∧
    (∀ (vh ch : ℤ) (pk : Option ℤ), getFullOpenTranslateY vh ch ⟨pk, .auto⟩ = vh - ch) ∧
    getFullOpenTranslateY 800 300 ⟨none, .auto⟩ = 500 ∧
    getClosedTranslateY 800 = 800 ∧
    getPeekOpenTranslateY 800 ⟨some 150, .full100⟩ = 650 ∧
    getFullOpenTranslateY 800 780 ⟨some 150, .full100⟩ = 20 :=
  ⟨fun _ => rfl, fun _ _ _ => rfl, fun _ _ _ => rfl, fun _ _ _ => rfl,
    by decide, by decide, by decide, by decide⟩

/-- C10: the Escape-key handler is registered for the Drawer's whole
lifetime with no `isOpen` guard, so an Escape keydown invokes `onClose` for
every value of `isOpen` — in particular when the drawer is already closed —
and for every `isOpen` the keydown outcome coincides with the bare
`useKeyPress` handler for "Escape". -/
theorem C10_escape_handler_active_regardless_of_open :
    (∀ isOpen : Bool, drawerKeydownInvokesClose isOpen "Escape" = true) ∧
    drawerKeydownInvokesClose false "Escape" = true ∧
    (∀ (isOpen : Bool) (k : String),
      drawerKeydownInvokesClose isOpen k = keyPressInvokesCallback "Escape" k) :=
  ⟨fun _ => rfl, rfl, fun _ _ => rfl⟩


/-- C3 counterexample: with a peek configured (peekHeight 800 on viewport
800, so the peek offset is 0) and no direction classification, a release at
position 100 is strictly closer to the peek offset (distance 100) than to
the full offset 700 (distance 600), yet the drawer is animated to the full
offset: the source tests `if (peekPosition)`, which is false for the zero
peek offset. -/
theorem C3_no_direction_snap_counterexample :
    (let env : Env := ⟨800, 800, 100, 100, ⟨some 800, .auto⟩⟩
     let s : DragState :=
       { initialDragState with
           isDragging := true
           translateY := 100 }
     let e := handleDragEnd env s
     env.config.peekHeight = some 800 ∧ (0:ℤ) < 800 ∧
     s.dragDirection = none ∧
     getPeekOpenTranslateY env.viewportHeight env.config = 0 ∧
     getFullOpenTranslateY env.viewportHeight env.drawerContentHeight env.config = 700 ∧
     |(100:ℤ) - 0| < |(100:ℤ) - 700| ∧
     e.animatedTo = some 700 ∧ e.state.translateY = 700) := by decide

/-- C3 amended: on a release with no direction classification, if a peek
offset is configured and is nonzero the drawer animates to the peek offset
when strictly closer to the terminal position and to the full offset
otherwise (ties go to full); when no peek is configured, or the peek offset
is zero (peekHeight equal to the viewport height, rejected by the source's
truthiness test), it animates to the full-open offset.  The close callback
is never invoked on a direction-less release. -/
theorem C3_no_direction_snaps_to_closest
    (env : Env) (s : DragState) (hdir : s.dragDirection = none) :
    ((env.config.peekTruthy = true ∧
        getPeekOpenTranslateY env.viewportHeight env.config ≠ 0) →
      (handleDragEnd env s).animatedTo = some
        (if |s.translateY - getPeekOpenTranslateY env.viewportHeight env.config| <
            |s.translateY - getFullOpenTranslateY env.viewportHeight env.drawerContentHeight env.config|
         then getPeekOpenTranslateY env.viewportHeight env.config
         else getFullOpenTranslateY env.viewportHeight env.drawerContentHeight env.config)) ∧
    ((env.config.peekTruthy = false ∨
        getPeekOpenTranslateY env.viewportHeight env.config = 0) →
      (handleDragEnd env s).animatedTo =
        some (getFullOpenTranslateY env.viewportHeight env.drawerContentHeight env.config)) ∧
    (handleDragEnd env s).closeInvoked = false := by
  refine ⟨?_, ?_, ?_⟩
  · rintro ⟨htr, hnz⟩
    simp [handleDragEnd, hdir, htr, hnz]
  · rintro (htr | hz)
    · simp [handleDragEnd, hdir, htr]
    · cases htr : env.config.peekTruthy
      · simp [handleDragEnd, hdir, htr]
      · simp [handleDragEnd, hdir, htr, hz]
  · cases htr : env.config.peekTruthy <;> simp [handleDragEnd, hdir, htr]

/-- Witness for the amended C3: viewport 800, peekHeight 150 (peek offset
650, nonzero), full offset 20, direction-less release at 600: the snap
target is the closer offset, and no close is invoked. -/
theorem C3_no_direction_snaps_to_closest_witness :
    (((⟨800, 800, 780, 780, ⟨some 150, .full100⟩⟩ : Env).config.peekTruthy = true ∧
        getPeekOpenTranslateY 800 (⟨some 150, .full100⟩ : Config) ≠ 0) →
      (handleDragEnd ⟨800, 800, 780, 780, ⟨some 150, .full100⟩⟩
          { openState := .peek
            isDragging := true
            translateY := 600
            dragStartY := 0
            initialYOffset := 0
            dragDirection := none
            touchStartedOnDrawer := true }).animatedTo = some
        (if |(600:ℤ) - getPeekOpenTranslateY 800 (⟨some 150, .full100⟩ : Config)| <
            |(600:ℤ) - getFullOpenTranslateY 800 780 (⟨some 150, .full100⟩ : Config)|
         then getPeekOpenTranslateY 800 (⟨some 150, .full100⟩ : Config)
         else getFullOpenTranslateY 800 780 (⟨some 150, .full100⟩ : Config))) ∧
    (((⟨800, 800, 780, 780, ⟨some 150, .full100⟩⟩ : Env).config.peekTruthy = false ∨
        getPeekOpenTranslateY 800 (⟨some 150, .full100⟩ : Config) = 0) →
      (handleDragEnd ⟨800, 800, 780, 780, ⟨some 150, .full100⟩⟩
          { openState := .peek
            isDragging := true
            translateY := 600
            dragStartY := 0
            initialYOffset := 0
            dragDirection := none
            touchStartedOnDrawer := true }).animatedTo =
        some (getFullOpenTranslateY 800 780 (⟨some 150, .full100⟩ : Config))) ∧
    (handleDragEnd ⟨800, 800, 780, 780, ⟨some 150, .full100⟩⟩
        { openState := .peek
          isDragging := true
          translateY := 600
          dragStartY := 0
          initialYOffset := 0
          dragDirection := none
          touchStartedOnDrawer := true }).closeInvoked = false :=
  C3_no_direction_snaps_to_closest
    ⟨800, 800, 780, 780, ⟨some 150, .full100⟩⟩
    { openState := .peek
      isDragging := true
      translateY := 600
      dragStartY := 0
      initialYOffset := 0
      dragDirection := none
      touchStartedOnDrawer := true }
    rfl

/-- C4: the code contradicts the claim (and its own design intent): the
drag session is not fully cleared on pointer-up — `handleDragEnd` sets
`isDragging` to false but never resets `dragDirection`.  At the failing
input below (viewport 800, peekHeight 150, fullHeight "100%"), a drag from
full-open down to 320 settles at peek 650 and leaves the direction stuck at
`down`; the subsequent full click (pointer-down at 660 then pointer-up with
no qualifying move) therefore takes the directional `down` branch and
invokes the close callback, instead of the distance-based snap (distance 0
to peek) the claim describes. -/
theorem C4_direction_not_reset_on_release :
    (let env : Env := ⟨800, 800, 780, 780, ⟨some 150, .full100⟩⟩
     let s1 := handleDragStart
       { initialDragState with
           openState := .full
           translateY := 20 } 40 20
     let e1 := handleDragEnd env (runMoves env (s1, ⟨20, 1⟩) [340]).1
     e1.closeInvoked = false ∧ e1.state.translateY = 650 ∧
     e1.state.isDragging = false ∧
     e1.state.dragDirection = some .down ∧
     (handleDragEnd env (handleDragStart e1.state 660 650)).closeInvoked = true) := by
  decide

/-- C6 counterexample: viewport 800, content 100, peekHeight 300 (auto
mode): fullOpen = 700 exceeds peekOpen = 500, violating the claimed
ordering fullOpen ≤ peekOpen. -/
theorem C6_offset_ordering_counterexample :
    getPeekOpenTranslateY 800 ⟨some 300, .auto⟩ = 500 ∧
    getFullOpenTranslateY 800 100 ⟨some 300, .auto⟩ = 700 ∧
    ¬(getFullOpenTranslateY 800 100 ⟨some 300, .auto⟩ ≤
        getPeekOpenTranslateY 800 ⟨some 300, .auto⟩) := by decide

/-- C6 amended: with a positive peek configured, peekOpen ≤ closed always
holds, and fullOpen ≤ peekOpen holds provided peekHeight does not exceed
the content height (auto mode) or viewportHeight - FULL_HEIGHT_OFFSET
("100%" mode); the source leaves these side conditions unvalidated and the
ordering inverts without them. -/
theorem C6_offset_ordering
    (vh ch p : ℤ) (c : Config) (hc : c.peekHeight = some p) (hpos : 0 < p) :
    getPeekOpenTranslateY vh c ≤ getClosedTranslateY vh ∧
    (c.fullHeight = .auto → p ≤ ch →
      getFullOpenTranslateY vh ch c ≤ getPeekOpenTranslateY vh c) ∧
    (c.fullHeight = .full100 → FULL_HEIGHT_OFFSET + p ≤ vh →
      getFullOpenTranslateY vh ch c ≤ getPeekOpenTranslateY vh c) := by
  refine ⟨?_, ?_, ?_⟩
  · simp [getPeekOpenTranslateY, getClosedTranslateY, hc]
    omega
  · intro hm hle
    simp [getFullOpenTranslateY, getPeekOpenTranslateY, hc, hm]
    omega
  · intro hm hle
    simp only [getFullOpenTranslateY, getPeekOpenTranslateY, FULL_HEIGHT_OFFSET, hc, hm] at hle ⊢
    simp [Option.getD]
    omega

/-- Witness for the amended C6 at viewport 800, content 300, peekHeight 150
in auto mode. -/
theorem C6_offset_ordering_witness :
    getPeekOpenTranslateY 800 (⟨some 150, .auto⟩ : Config) ≤ getClosedTranslateY 800 ∧
    ((⟨some 150, .auto⟩ : Config).fullHeight = .auto → (150:ℤ) ≤ 300 →
      getFullOpenTranslateY 800 300 (⟨some 150, .auto⟩ : Config) ≤
        getPeekOpenTranslateY 800 (⟨some 150, .auto⟩ : Config)) ∧
    ((⟨some 150, .auto⟩ : Config).fullHeight = .full100 → FULL_HEIGHT_OFFSET + 150 ≤ (800:ℤ) →
      getFullOpenTranslateY 800 300 (⟨some 150, .auto⟩ : Config) ≤
        getPeekOpenTranslateY 800 (⟨some 150, .auto⟩ : Config)) :=
  C6_offset_ordering 800 300 150 ⟨some 150, .auto⟩ rfl (by decide)

/-- C7 counterexample: an over-open move is not a complete no-op.  Viewport
800, drawer height 300, drawer at 500 (exactly fully shown); a move whose
proposed position is 450 would show 350 ≥ 300 pixels, so the transform
write is rejected and the drawer element stays at 500 — but the drag state
is not left unchanged: its stored translateY is updated to 450 before the
guard runs. -/
theorem C7_overdrag_rejection_counterexample :
    (let env : Env := ⟨800, 800, 300, 300, ⟨none, .auto⟩⟩
     let s : DragState :=
       { initialDragState with
           isDragging := true
           translateY := 500
           dragStartY := 520
           initialYOffset := 20
           touchStartedOnDrawer := true }
     let surf : Surfaces := ⟨500, 1⟩
     let r := handleDragMove env s surf 470
     env.drawerHeight ≤ env.windowInnerHeight - (470 - s.initialYOffset) ∧
     r.2.drawerTransform = 500 ∧ r.2 = surf ∧
     r.1.translateY = 450 ∧ r.1 ≠ s) := by decide

/-- C7 amended: when a pointer-move during an active drag proposes a
position whose visible amount (windowInnerHeight minus the proposed
translateY) reaches or exceeds the drawer's rendered height, no style is
written — both surfaces keep their last values — but the drag state is not
unchanged: its stored translateY is overwritten with the proposed position
(direction and the remaining fields are untouched). -/
theorem C7_overdrag_rejects_write_but_updates_state
    (env : Env) (s : DragState) (surf : Surfaces) (clientY : ℤ)
    (hd : s.isDragging = true)
    (hrej : env.drawerHeight ≤ env.windowInnerHeight - (clientY - s.initialYOffset)) :
    (handleDragMove env s surf clientY).2 = surf ∧
    (handleDragMove env s surf clientY).1 =
      { s with translateY := clientY - s.initialYOffset } := by
  have harith : s.dragStartY + (clientY - s.dragStartY) - s.initialYOffset
      = clientY - s.initialYOffset := by ring
  rw [handleDragMove]
  simp only [hd, harith]
  rw [if_neg (by simp), if_pos hrej]
  exact ⟨rfl, rfl⟩

/-- Witness for the amended C7: the concrete rejected move of the
counterexample seen through the general theorem. -/
theorem C7_overdrag_rejects_write_but_updates_state_witness :
    (handleDragMove ⟨800, 800, 300, 300, ⟨none, .auto⟩⟩
        { openState := .closed
          isDragging := true
          translateY := 500
          dragStartY := 520
          initialYOffset := 20
          dragDirection := none
          touchStartedOnDrawer := true } ⟨500, 1⟩ 470).2 = ⟨500, 1⟩ ∧
    (handleDragMove ⟨800, 800, 300, 300, ⟨none, .auto⟩⟩
        { openState := .closed
          isDragging := true
          translateY := 500
          dragStartY := 520
          initialYOffset := 20
          dragDirection := none
          touchStartedOnDrawer := true } ⟨500, 1⟩ 470).1 =
      { ({ openState := .closed
           isDragging := true
           translateY := 500
           dragStartY := 520
           initialYOffset := 20
           dragDirection := none
           touchStartedOnDrawer := true } : DragState) with translateY := 470 - 20 } :=
  C7_overdrag_rejects_write_but_updates_state
    ⟨800, 800, 300, 300, ⟨none, .auto⟩⟩
    { openState := .closed
      isDragging := true
      translateY := 500
      dragStartY := 520
      initialYOffset := 20
      dragDirection := none
      touchStartedOnDrawer := true } ⟨500, 1⟩ 470 rfl (by decide)


/-- C8 counterexample: the opacity written during a drag move is not always
within [0,1].  Viewport 800, peekHeight 150 (open threshold 650); a
qualifying move to position 500 — above the threshold — gives progress -1
and the source writes `Math.max(0, 1 - progress)` = 2 to the overlay:
clamped below at 0 only, not above at 1. -/
theorem C8_overlay_opacity_counterexample :
    (let env : Env := ⟨800, 800, 780, 780, ⟨some 150, .full100⟩⟩
     let s : DragState :=
       { initialDragState with
           isDragging := true
           translateY := 650
           dragStartY := 660
           initialYOffset := 10
           touchStartedOnDrawer := true }
     let r := handleDragMove env s ⟨650, 1⟩ 510
     r.2.drawerTransform = 500 ∧ r.2.overlayOpacity = 2 ∧
     ¬(r.2.overlayOpacity ≤ 1)) := by
  norm_num [handleDragMove, bottomThreshold, Config.peekTruthy]

/-- C8 amended: on every pointer-move of an active drag that passes the
overdrag guard and the 15px deadband (only those write the overlay), the
opacity written is `max 0 (1 - progress)` with progress the position's
linear progress from the open threshold (peek position when peek is
configured, else viewport minus drawer height) to the viewport bottom; the
value is clamped below at 0 but not above, so it always satisfies 0 ≤
opacity, and lies in [0,1] — equal to the claimed clamped interpolation —
exactly when the new position is at or below the open threshold. -/
theorem C8_overlay_opacity_formula
    (env : Env) (s : DragState) (surf : Surfaces) (clientY : ℤ)
    (hd : s.isDragging = true)
    (hacc : env.windowInnerHeight - (clientY - s.initialYOffset) < env.drawerHeight)
    (hdead : 15 ≤ |clientY - s.dragStartY|)
    (hth : bottomThreshold env < env.viewportHeight) :
    (handleDragMove env s surf clientY).2.overlayOpacity =
      max 0 (1 - ((clientY - s.initialYOffset - bottomThreshold env : ℤ) : ℚ) /
        ((env.viewportHeight - bottomThreshold env : ℤ) : ℚ)) ∧
    0 ≤ (handleDragMove env s surf clientY).2.overlayOpacity ∧
    (bottomThreshold env ≤ clientY - s.initialYOffset →
      (handleDragMove env s surf clientY).2.overlayOpacity ≤ 1) := by
  have harith : s.dragStartY + (clientY - s.dragStartY) - s.initialYOffset
      = clientY - s.initialYOffset := by ring
  have hmove : (handleDragMove env s surf clientY).2.overlayOpacity =
      max 0 (1 - ((clientY - s.initialYOffset - bottomThreshold env : ℤ) : ℚ) /
        ((env.viewportHeight - bottomThreshold env : ℤ) : ℚ)) := by
    rw [handleDragMove]
    simp only [hd, harith]
    rw [if_neg (by simp), if_neg (by omega), if_neg (not_lt.mpr hdead)]
  refine ⟨hmove, ?_, ?_⟩
  · rw [hmove]
    exact le_max_left _ _
  · intro h
    rw [hmove]
    have hnum : (0:ℚ) ≤ ((clientY - s.initialYOffset - bottomThreshold env : ℤ) : ℚ) := by
      exact_mod_cast (by omega : (0:ℤ) ≤ clientY - s.initialYOffset - bottomThreshold env)
    have hden : (0:ℚ) ≤ ((env.viewportHeight - bottomThreshold env : ℤ) : ℚ) := by
      exact_mod_cast (by omega : (0:ℤ) ≤ env.viewportHeight - bottomThreshold env)
    have hprog := div_nonneg hnum hden
    exact max_le (by norm_num) (by linarith)

/-- Witness for the amended C8: viewport 800, peekHeight 150 (threshold
650), a qualifying move to position 700, at or below the threshold. -/
theorem C8_overlay_opacity_formula_witness :
    (handleDragMove ⟨800, 800, 780, 780, ⟨some 150, .full100⟩⟩
        { openState := .peek
          isDragging := true
          translateY := 650
          dragStartY := 660
          initialYOffset := 10
          dragDirection := none
          touchStartedOnDrawer := true } ⟨650, 1⟩ 710).2.overlayOpacity =
      max 0 (1 - ((710 - 10 - bottomThreshold ⟨800, 800, 780, 780, ⟨some 150, .full100⟩⟩ : ℤ) : ℚ) /
        ((800 - bottomThreshold ⟨800, 800, 780, 780, ⟨some 150, .full100⟩⟩ : ℤ) : ℚ)) ∧
    0 ≤ (handleDragMove ⟨800, 800, 780, 780, ⟨some 150, .full100⟩⟩
        { openState := .peek
          isDragging := true
          translateY := 650
          dragStartY := 660
          initialYOffset := 10
          dragDirection := none
          touchStartedOnDrawer := true } ⟨650, 1⟩ 710).2.overlayOpacity ∧
    (bottomThreshold ⟨800, 800, 780, 780, ⟨some 150, .full100⟩⟩ ≤ 710 - 10 →
      (handleDragMove ⟨800, 800, 780, 780, ⟨some 150, .full100⟩⟩
        { openState := .peek
          isDragging := true
          translateY := 650
          dragStartY := 660
          initialYOffset := 10
          dragDirection := none
          touchStartedOnDrawer := true } ⟨650, 1⟩ 710).2.overlayOpacity ≤ 1) :=
  C8_overlay_opacity_formula
    ⟨800, 800, 780, 780, ⟨some 150, .full100⟩⟩
    { openState := .peek
      isDragging := true
      translateY := 650
      dragStartY := 660
      initialYOffset := 10
      dragDirection := none
      touchStartedOnDrawer := true } ⟨650, 1⟩ 710 rfl (by decide) (by decide) (by decide)

/-- A tick is a no-op when no unmount timeout is pending. -/
lemma animatedRenderStep_tick_of_pending_none
    (d : ℕ) (s : AnimatedRenderState) (hp : s.pending = none) :
    animatedRenderStep d s .tick = s := by
  simp [animatedRenderStep, hp]

/-- Elapsing any amount of time is a no-op when no timeout is pending. -/
lemma animatedRenderTicks_of_pending_none
    (d : ℕ) (s : AnimatedRenderState) (hp : s.pending = none) (k : ℕ) :
    animatedRenderTicks d s k = s := by
  induction k with
  | zero => rfl
  | succ n ih =>
    show animatedRenderTicks d (animatedRenderStep d s .tick) n = s
    rw [animatedRenderStep_tick_of_pending_none d s hp]
    exact ih

/-- Before the pending timeout fires, the content stays mounted and the
timeout counts down. -/
lemma animatedRenderTicks_countdown
    (d : ℕ) (sh : Bool) (n k : ℕ) (hk : k < n) :
    animatedRenderTicks d ⟨sh, true, some n⟩ k = ⟨sh, true, some (n - k)⟩ := by
  induction k generalizing n with
  | zero => rfl
  | succ j ih =>
    show animatedRenderTicks d (animatedRenderStep d ⟨sh, true, some n⟩ .tick) j = _
    have hn : ¬ n ≤ 1 := by omega
    have harr : n - 1 - j = n - (j + 1) := by omega
    rw [show animatedRenderStep d (⟨sh, true, some n⟩ : AnimatedRenderState) .tick
        = ⟨sh, true, some (n - 1)⟩ by simp [animatedRenderStep, hn]]
    rw [ih (n - 1) (by omega), harr]

/-- When exactly the pending time elapses, the timeout fires and unmounts. -/
lemma animatedRenderTicks_fire (d : ℕ) (sh : Bool) (n : ℕ) :
    animatedRenderTicks d ⟨sh, true, some (n + 1)⟩ (n + 1) = ⟨sh, false, none⟩ := by
  induction n with
  | zero => simp [animatedRenderTicks, animatedRenderStep]
  | succ m ih =>
    show animatedRenderTicks d
      (animatedRenderStep d ⟨sh, true, some (m + 2)⟩ .tick) (m + 1) = _
    have h2 : ¬ (m + 2 ≤ 1) := by omega
    rw [show animatedRenderStep d (⟨sh, true, some (m + 2)⟩ : AnimatedRenderState) .tick
        = ⟨sh, true, some (m + 1)⟩ by simp [animatedRenderStep, h2]]
    exact ih

/-- C9: from a shown, mounted state, after the prop turns false the content
stays rendered for every instant strictly before the grace duration and is
unmounted once the grace duration elapses; and if the prop turns true again
at any instant strictly before the grace duration, the pending unmount
timeout is cancelled (no timeout outstanding) and the content stays
rendered forever after. -/
theorem C9_grace_unmount_and_reopen_cancel
    (duration : ℕ) (s : AnimatedRenderState)
    (hdur : 0 < duration) (hshow : s.showing = true) (hm : s.isMounted = true) :
    (∀ k, k < duration →
      rendersChildren (animatedRenderTicks duration
        (animatedRenderStep duration s (.setShowing false)) k) = true) ∧
    rendersChildren (animatedRenderTicks duration
      (animatedRenderStep duration s (.setShowing false)) duration) = false ∧
    (∀ j, j < duration →
      (animatedRenderStep duration (animatedRenderTicks duration
        (animatedRenderStep duration s (.setShowing false)) j) (.setShowing true)).pending
        = none ∧
      ∀ k, rendersChildren (animatedRenderTicks duration
        (animatedRenderStep duration (animatedRenderTicks duration
          (animatedRenderStep duration s (.setShowing false)) j) (.setShowing true)) k)
        = true) := by
  have hclosed : animatedRenderStep duration s (.setShowing false)
      = ⟨false, true, some duration⟩ := by
    simp [animatedRenderStep, hshow, hm]
  refine ⟨?_, ?_, ?_⟩
  · intro k hk
    rw [hclosed, animatedRenderTicks_countdown duration false duration k hk]
    rfl
  · rw [hclosed]
    obtain ⟨m, rfl⟩ : ∃ m, duration = m + 1 := ⟨duration - 1, by omega⟩
    rw [animatedRenderTicks_fire]
    rfl
  · intro j hj
    rw [hclosed, animatedRenderTicks_countdown duration false duration j hj]
    have hre : animatedRenderStep duration
        (⟨false, true, some (duration - j)⟩ : AnimatedRenderState) (.setShowing true)
        = ⟨true, true, none⟩ := by
      simp [animatedRenderStep]
    rw [hre]
    refine ⟨rfl, fun k => ?_⟩
    rw [animatedRenderTicks_of_pending_none duration _ rfl k]
    rfl

/-- Witness for C9: grace duration 500 (the Drawer's DURATION + 100), from
the shown and mounted state; rendered at 250 ticks after close, unmounted
at 500; reopening at 100 ticks cancels the timeout and it stays rendered
ever after (sampled at 9999 ticks). -/
theorem C9_grace_unmount_and_reopen_cancel_witness :
    rendersChildren (animatedRenderTicks 500
      (animatedRenderStep 500 ⟨true, true, none⟩ (.setShowing false)) 250) = true ∧
    rendersChildren (animatedRenderTicks 500
      (animatedRenderStep 500 ⟨true, true, none⟩ (.setShowing false)) 500) = false ∧
    (animatedRenderStep 500 (animatedRenderTicks 500
      (animatedRenderStep 500 ⟨true, true, none⟩ (.setShowing false)) 100)
        (.setShowing true)).pending = none ∧
    rendersChildren (animatedRenderTicks 500
      (animatedRenderStep 500 (animatedRenderTicks 500
        (animatedRenderStep 500 ⟨true, true, none⟩ (.setShowing false)) 100)
          (.setShowing true)) 9999) = true := by
  have h := C9_grace_unmount_and_reopen_cancel 500 ⟨true, true, none⟩ (by decide) rfl rfl
  exact ⟨h.1 250 (by decide), h.2.1, (h.2.2 100 (by decide)).1,
    (h.2.2 100 (by decide)).2 9999⟩

end DrawerV5
